import Mathlib

/-!
Verification of the `jdprocess` routine of the JumpDiff repository
(`src/JumpDiff/jdprocess.py`).

The Python function is embedded shallowly:

* real numbers are modelled by `ℚ`;
* Python runtime values that reach the argument checks are modelled by
  `PyVal` (the function distinguishes values only through `callable`,
  `type(x) == int`, `type(x) == float`, comparison with `None`, and the
  numeric value / the underlying real-to-real map);
* the ambient numpy random generator is an explicit state `Rng`: a stream
  of outcomes, a position in the stream, and a log of the distribution
  requests made so far (one log entry per scalar drawn, so a vectorised
  call of size `n` appends `n` identical entries);
* `assert` failures, the `IndexError` raised by `X[0] = ...` on a
  length-0 array, and the `ValueError` raised by `np.random.poisson` on a
  negative rate are modelled by `Except`;
* a small event log records the milestones of the computation
  (length computed, array allocated, ...), so that statements about
  *when* a failure happens are expressible.
-/

namespace JumpDiff

/-- Python runtime values as far as `jdprocess` can distinguish them:
`None`, exact `int`, exact `float`, `bool`, strings, callables
(functions from reals to reals), and numpy scalar types. -/
inductive PyVal where
  | none
  | int (n : Int)
  | float (q : ℚ)
  | bool (b : Bool)
  | str (s : String)
  | func (f : ℚ → ℚ)
  | npFloat (q : ℚ)
  | npInt (n : Int)

/-- Python `callable(v)`. -/
def callable : PyVal → Bool
  | .func _ => true
  | _ => false

/-- Python `v == None` for the value kinds above (no custom `__eq__`). -/
def pyEqNone : PyVal → Bool
  | .none => true
  | _ => false

/-- Python `v is None`. -/
def pyIsNone : PyVal → Bool
  | .none => true
  | _ => false

/-- Python `type(v) == int`: an exact type check, so `bool` and numpy
integer scalars do not match. -/
def typeIsInt : PyVal → Bool
  | .int _ => true
  | _ => false

/-- Python `type(v) == float`: an exact type check, so numpy floating
scalars do not match. -/
def typeIsFloat : PyVal → Bool
  | .float _ => true
  | _ => false

/-- Python `type(v) == int or type(v) == float`, the shape of the numeric
type checks in `jdprocess`. -/
def isNumType (v : PyVal) : Bool := typeIsInt v || typeIsFloat v

/-- Numeric value carried by a `PyVal` (junk `0` on non-numeric values;
every use in the embedding is guarded by the corresponding check). -/
def PyVal.toRat : PyVal → ℚ
  | .int n => n
  | .float q => q
  | .bool b => if b then 1 else 0
  | .npFloat q => q
  | .npInt n => n
  | _ => 0

/-- The real-to-real map carried by a callable `PyVal` (junk constant `0`
otherwise; every use is guarded by a `callable` check). -/
def PyVal.app : PyVal → ℚ → ℚ
  | .func f => f
  | _ => fun _ => 0

/-- Distribution of one scalar numpy draw. `normalSqrt loc v` stands for
`np.random.normal(loc, np.sqrt v)`: the source always passes the scale as
a square root, so the request is recorded by the number under the root. -/
inductive Law where
  | normalSqrt (loc : ℚ) (var : ℚ)
  | poisson (lam : ℚ)
deriving DecidableEq

/-- The ambient numpy random generator: a stream of outcomes, the current
position, and the log of all draw requests made so far. -/
structure Rng where
  stream : ℕ → ℚ
  idx : ℕ
  trace : List Law

/-- One scalar draw from the ambient generator. -/
def Rng.draw (g : Rng) (d : Law) : ℚ × Rng :=
  (g.stream g.idx, ⟨g.stream, g.idx + 1, g.trace ++ [d]⟩)

/-- One vectorised numpy call of the given size: consumes `n` stream
values at once and logs `n` identical requests. -/
def Rng.drawBlock (g : Rng) (d : Law) (n : ℕ) : List ℚ × Rng :=
  ((List.range n).map (fun j => g.stream (g.idx + j)),
   ⟨g.stream, g.idx + n, g.trace ++ List.replicate n d⟩)

/-- Failures `jdprocess` can raise: `AssertionError` with its message,
the `IndexError` from writing `X[0]` on an empty array, and the
`ValueError` from `np.random.poisson` on a negative rate. -/
inductive PyErr where
  | assertionError (msg : String)
  | indexError
  | valueError
deriving DecidableEq

/-- Milestones of one run, in execution order, used to state when a
failure happens relative to the body of the routine. -/
inductive Event where
  | computedLength (l : Int)
  | allocatedPath (n : ℕ)
  | setInitial
  | generatedNoise
  | generatedJumps
  | ranLoop
deriving DecidableEq

/-- Result of one call: the returned path or the failure raised, the
final generator state, and the event log up to return or failure. -/
structure JDResult where
  out : Except PyErr (List ℚ)
  rng : Rng
  events : List Event

/-- Python `int(q)` on a real: truncation toward zero. -/
def pyInt (q : ℚ) : Int := if 0 ≤ q then ⌊q⌋ else -⌊-q⌋

/-- The `assert` block at the entry of `jdprocess`, in source order:
`time > 0`, `delta_t > 0`, the two Milstein checks on `b_prime`
(`b_prime == None`, then `callable(b_prime)`), callability of `a` and
`b`, and the exact numeric type checks on `lamb` and `xi`.
Returns the first failure, if any. -/
def jdChecks (time delta_t : ℚ) (a b xi lamb : PyVal) (solver : String)
    (b_prime : PyVal) : Option PyErr :=
  if ¬ time > 0 then some (.assertionError "Total integration time must be positive")
  else if ¬ delta_t > 0 then some (.assertionError "Time sampling must be positive")
  else if solver = "Milstein" ∧ pyEqNone b_prime = false then
    some (.assertionError "Introduce b\x27(x) to use the Milstein solver")
  else if solver = "Milstein" ∧ callable b_prime = false then
    some (.assertionError "b\x27(x) must be a function")
  else if callable a = false then some (.assertionError "drift a(x) must be a function")
  else if callable b = false then some (.assertionError "diffusion b(x) must be a function")
  else if isNumType lamb = false then some (.assertionError "\x27lamb\x27 is not an int or float")
  else if isNumType xi = false then some (.assertionError "\x27xi\x27 is not an int or float")
  else none

/-- The initial-value phase, after `X = np.zeros(length)`: if `init` is
`None`, draw one `Normal(0, sqrt delta_t)` value (the draw happens before
the assignment, so it is consumed even when the assignment then fails);
otherwise check `type(init)` and use `float(init)`.  Writing `X[0]` on a
length-0 array raises `IndexError`. -/
def jdInit (init : PyVal) (delta_t : ℚ) (n : ℕ) (g : Rng) : Except PyErr ℚ × Rng :=
  if pyIsNone init then
    let p := g.draw (.normalSqrt 0 delta_t)
    if n = 0 then (.error .indexError, p.2) else (.ok p.1, p.2)
  else if isNumType init then
    if n = 0 then (.error .indexError, g) else (.ok init.toRat, g)
  else (.error (.assertionError "\x27init\x27 is not an int or float"), g)

/-- The jump superposition at one step: when the step's jump count is
positive, draw one fresh `Normal(0, sqrt xiV)` value and add
`count * draw`; otherwise draw nothing. -/
def jumpAdd (xiV : ℚ) (dJi : ℚ) (x : ℚ) (g : Rng) : ℚ × Rng :=
  if dJi > 0 then
    let p := g.draw (.normalSqrt 0 xiV)
    (x + dJi * p.1, p.2)
  else (x, g)

/-- One step of either integration loop: the deterministic part `f i x`
followed by the jump superposition driven by the step's jump count
`dJ i`. -/
def detStep (f : ℕ → ℚ → ℚ) (xiV : ℚ) (dJ : ℕ → ℚ) (i : ℕ) (x : ℚ) (g : Rng) : ℚ × Rng :=
  jumpAdd xiV (dJ i) (f i x) g

/-- The integration loop `for i in range(s, s + k)`: starting from the
previous value `x`, produce the values written to `X[s], ..., X[s+k-1]`
and the final generator state. -/
def jdLoop (step : ℕ → ℚ → Rng → ℚ × Rng) : ℕ → ℕ → ℚ → Rng → List ℚ × Rng
  | _, 0, _, g => ([], g)
  | i, k + 1, x, g =>
    let p := step i x g
    let q := jdLoop step (i + 1) k p.1 p.2
    (p.1 :: q.1, q.2)

/-- Deterministic part of the Euler–Maruyama step:
`X[i-1] + a(X[i-1]) * delta_t + b(X[i-1]) * dw[i]`. -/
def eulerF (a b : ℚ → ℚ) (dt : ℚ) (dw : List ℚ) : ℕ → ℚ → ℚ :=
  fun i x => x + a x * dt + b x * dw.getD i 0

/-- The Milstein corrective terms `dw_2 = (dw**2 - delta_t) * 0.5`,
computed once for the whole noise array before the loop. -/
def milsteinCorr (dt : ℚ) (dw : List ℚ) : List ℚ :=
  dw.map (fun w => (w ^ 2 - dt) * (1 / 2))

/-- Deterministic part of the Milstein step: the Euler part plus
`b(X[i-1]) * b_prime(X[i-1]) * dw_2[i]`. -/
def milsteinF (a b bp : ℚ → ℚ) (dt : ℚ) (dw dw2 : List ℚ) : ℕ → ℚ → ℚ :=
  fun i x => x + a x * dt + b x * dw.getD i 0 + b x * bp x * dw2.getD i 0

/-- The Euler branch of `jdprocess`: the full path `X` (initial value
followed by the loop over `range(1, length)`) and the final generator. -/
def eulerRun (a b : ℚ → ℚ) (dt xiV : ℚ) (dw dJ : List ℚ) (x0 : ℚ) (n : ℕ)
    (g : Rng) : List ℚ × Rng :=
  let r := jdLoop (detStep (eulerF a b dt dw) xiV (fun i => dJ.getD i 0)) 1 (n - 1) x0 g
  (x0 :: r.1, r.2)

/-- The Milstein branch of `jdprocess`: corrective terms computed before
the loop, then the loop over `range(1, length)`. -/
def milsteinRun (a b bp : ℚ → ℚ) (dt xiV : ℚ) (dw dJ : List ℚ) (x0 : ℚ) (n : ℕ)
    (g : Rng) : List ℚ × Rng :=
  let r := jdLoop (detStep (milsteinF a b bp dt dw (milsteinCorr dt dw)) xiV
    (fun i => dJ.getD i 0)) 1 (n - 1) x0 g
  (x0 :: r.1, r.2)

/-- Body of `jdprocess` after the entry asserts: compute
`length = int(time/delta_t)`, allocate `X`, set `X[0]`, generate the
Gaussian noise block and the Poissonian jump block, then run the branch
selected by `solver` (an unrecognised solver runs no loop and returns the
array as initialised). -/
def jdMain (time delta_t : ℚ) (a b xi lamb init : PyVal) (solver : String)
    (b_prime : PyVal) (g : Rng) : JDResult :=
  let l : Int := pyInt (time / delta_t)
  let n : ℕ := l.toNat
  let p := jdInit init delta_t n g
  match p.1 with
  | .error e => ⟨.error e, p.2, [.computedLength l, .allocatedPath n]⟩
  | .ok x0 =>
    let q := p.2.drawBlock (.normalSqrt 0 delta_t) n
    if lamb.toRat * delta_t < 0 then
      ⟨.error .valueError, q.2,
        [.computedLength l, .allocatedPath n, .setInitial, .generatedNoise]⟩
    else
      let r := q.2.drawBlock (.poisson (lamb.toRat * delta_t)) n
      if solver = "Euler" then
        let s := eulerRun a.app b.app delta_t xi.toRat q.1 r.1 x0 n r.2
        ⟨.ok s.1, s.2,
          [.computedLength l, .allocatedPath n, .setInitial, .generatedNoise,
            .generatedJumps, .ranLoop]⟩
      else if solver = "Milstein" then
        let s := milsteinRun a.app b.app b_prime.app delta_t xi.toRat q.1 r.1 x0 n r.2
        ⟨.ok s.1, s.2,
          [.computedLength l, .allocatedPath n, .setInitial, .generatedNoise,
            .generatedJumps, .ranLoop]⟩
      else
        ⟨.ok (x0 :: List.replicate (n - 1) 0), r.2,
          [.computedLength l, .allocatedPath n, .setInitial, .generatedNoise,
            .generatedJumps]⟩

/-- The function `jdprocess(time, delta_t, a, b, xi, lamb, init, solver,
b_prime)` of `src/JumpDiff/jdprocess.py`, run against the generator state
`g`. -/
def jdprocess (time delta_t : ℚ) (a b xi lamb init : PyVal) (solver : String)
    (b_prime : PyVal) (g : Rng) : JDResult :=
  match jdChecks time delta_t a b xi lamb solver b_prime with
  | some e => ⟨.error e, g, []⟩
  | none => jdMain time delta_t a b xi lamb init solver b_prime g

/-- Number of stream values consumed by the initial-value phase: one when
`init` is `None`, none otherwise. -/
def initOffset (init : PyVal) : ℕ := if pyIsNone init then 1 else 0

/-- The `i`-th pre-generated Wiener increment of a run started from `g`. -/
def wienerAt (g : Rng) (init : PyVal) (i : ℕ) : ℚ :=
  g.stream (g.idx + initOffset init + i)

/-- The `i`-th pre-generated Poisson jump count of a run started from `g`
with path length `n`. -/
def jumpAt (g : Rng) (init : PyVal) (n i : ℕ) : ℚ :=
  g.stream (g.idx + initOffset init + n + i)

/-- The `k`-th jump-size draw made inside the loop of a run started from
`g` with path length `n`. -/
def jumpDrawAt (g : Rng) (init : PyVal) (n k : ℕ) : ℚ :=
  g.stream (g.idx + initOffset init + n + n + k)

/-- The Wiener-increment block of a run started from `g`. -/
def dwListOf (g : Rng) (init : PyVal) (n : ℕ) : List ℚ :=
  (List.range n).map (fun i => wienerAt g init i)

/-- The jump-count block of a run started from `g`. -/
def dJListOf (g : Rng) (init : PyVal) (n : ℕ) : List ℚ :=
  (List.range n).map (fun i => jumpAt g init n i)

/-- Number of indices `j` with `s ≤ j < s + k` whose jump count is
positive. -/
def jumpCount (dJ : ℕ → ℚ) : ℕ → ℕ → ℕ
  | _, 0 => 0
  | s, k + 1 => (if dJ s > 0 then 1 else 0) + jumpCount dJ (s + 1) k

/-- Number of jump-size draws consumed by the loop before it reaches
index `i` (loop indices run from 1). -/
def loopJumps (g : Rng) (init : PyVal) (n i : ℕ) : ℕ :=
  jumpCount (fun j => (dJListOf g init n).getD j 0) 1 (i - 1)

/-- Initial path value of a run started from `g`: the fresh draw when
`init` is absent, `float(init)` otherwise. -/
def jdX0 (g : Rng) (init : PyVal) : ℚ :=
  if pyIsNone init then g.stream g.idx else init.toRat

/-- The request log after the pre-generation phase: the optional initial
draw, then the full noise block, then the full jump block. -/
def preTrace (g : Rng) (init : PyVal) (dt lam : ℚ) (n : ℕ) : List Law :=
  g.trace ++ (if pyIsNone init then [Law.normalSqrt 0 dt] else [])
    ++ List.replicate n (Law.normalSqrt 0 dt) ++ List.replicate n (Law.poisson lam)

/-- Generator state right after the pre-generation phase (initial draw if
any, noise block, jump block), before any loop iteration. -/
def postGen (g : Rng) (init : PyVal) (dt lam : ℚ) (n : ℕ) : Rng :=
  ⟨g.stream, g.idx + initOffset init + n + n, preTrace g init dt lam n⟩

/-- A callable value never compares equal to `None`. -/
theorem callable_pyEqNone {v : PyVal} (h : callable v = true) : pyEqNone v = false := by
  cases v <;> simp_all [callable, pyEqNone]

/-- A value of exact type `int` or `float` is not `None`. -/
theorem isNumType_pyIsNone {v : PyVal} (h : isNumType v = true) : pyIsNone v = false := by
  cases v <;> simp_all [isNumType, typeIsInt, typeIsFloat, pyIsNone]

/-- On nonnegative reals, Python truncation agrees with the floor. -/
theorem pyInt_nonneg (q : ℚ) (h : 0 ≤ q) : pyInt q = ⌊q⌋ := if_pos h

/-- All entry asserts pass under the stated hypotheses (any solver other
than `Milstein`). -/
theorem jdChecks_none_of (time delta_t : ℚ) (a b xi lamb : PyVal) (solver : String)
    (bp : PyVal) (ht : time > 0) (hdt : delta_t > 0) (hs : solver ≠ "Milstein")
    (ha : callable a = true) (hb : callable b = true)
    (hlamb : isNumType lamb = true) (hxi : isNumType xi = true) :
    jdChecks time delta_t a b xi lamb solver bp = none := by
  simp [jdChecks, ht, hdt, hs, ha, hb, hlamb, hxi]

/-- When all entry asserts pass, `jdprocess` is its body. -/
theorem jdprocess_eq_main (time delta_t : ℚ) (a b xi lamb init : PyVal) (solver : String)
    (bp : PyVal) (g : Rng) (ht : time > 0) (hdt : delta_t > 0) (hs : solver ≠ "Milstein")
    (ha : callable a = true) (hb : callable b = true)
    (hlamb : isNumType lamb = true) (hxi : isNumType xi = true) :
    jdprocess time delta_t a b xi lamb init solver bp g =
      jdMain time delta_t a b xi lamb init solver bp g := by
  unfold jdprocess
  rw [jdChecks_none_of time delta_t a b xi lamb solver bp ht hdt hs ha hb hlamb hxi]

/-- Initial phase with `init` absent and a nonempty path. -/
theorem jdInit_none_pos (delta_t : ℚ) (n : ℕ) (g : Rng) (hn : n ≠ 0) :
    jdInit PyVal.none delta_t n g =
      (.ok (g.stream g.idx),
       ⟨g.stream, g.idx + 1, g.trace ++ [Law.normalSqrt 0 delta_t]⟩) := by
  simp [jdInit, pyIsNone, hn, Rng.draw]

/-- Initial phase with a numeric `init` and a nonempty path. -/
theorem jdInit_num_pos (v : PyVal) (delta_t : ℚ) (n : ℕ) (g : Rng)
    (hv : isNumType v = true) (hn : n ≠ 0) :
    jdInit v delta_t n g = (.ok v.toRat, g) := by
  simp [jdInit, isNumType_pyIsNone hv, hv, hn]

/-- Value produced by one loop step. -/
theorem detStep_fst (f : ℕ → ℚ → ℚ) (xiV : ℚ) (dJ : ℕ → ℚ) (i : ℕ) (x : ℚ) (g : Rng) :
    (detStep f xiV dJ i x g).1 =
      f i x + (if dJ i > 0 then dJ i * g.stream g.idx else 0) := by
  unfold detStep jumpAdd Rng.draw
  split <;> simp

/-- Generator state after one loop step. -/
theorem detStep_snd (f : ℕ → ℚ → ℚ) (xiV : ℚ) (dJ : ℕ → ℚ) (i : ℕ) (x : ℚ) (g : Rng) :
    (detStep f xiV dJ i x g).2 =
      if dJ i > 0
      then ⟨g.stream, g.idx + 1, g.trace ++ [Law.normalSqrt 0 xiV]⟩
      else g := by
  unfold detStep jumpAdd Rng.draw
  split <;> rfl

/-- The loop writes exactly `k` values. -/
theorem jdLoop_length (step : ℕ → ℚ → Rng → ℚ × Rng) :
    ∀ (k s : ℕ) (x : ℚ) (g : Rng), (jdLoop step s k x g).1.length = k := by
  intro k
  induction k with
  | zero => intro s x g; rfl
  | succ k ih => intro s x g; simp [jdLoop, ih]

/-- The loop does not change the outcome stream. -/
theorem jdLoop_stream (f : ℕ → ℚ → ℚ) (xiV : ℚ) (dJ : ℕ → ℚ) :
    ∀ (k s : ℕ) (x : ℚ) (g : Rng),
      (jdLoop (detStep f xiV dJ) s k x g).2.stream = g.stream := by
  intro k
  induction k with
  | zero => intro s x g; rfl
  | succ k ih =>
    intro s x g
    simp only [jdLoop]
    rw [ih, detStep_snd]
    split <;> rfl

/-- The loop advances the stream position by one unit per step with a
positive jump count. -/
theorem jdLoop_idx (f : ℕ → ℚ → ℚ) (xiV : ℚ) (dJ : ℕ → ℚ) :
    ∀ (k s : ℕ) (x : ℚ) (g : Rng),
      (jdLoop (detStep f xiV dJ) s k x g).2.idx = g.idx + jumpCount dJ s k := by
  intro k
  induction k with
  | zero => intro s x g; simp [jdLoop, jumpCount]
  | succ k ih =>
    intro s x g
    simp only [jdLoop]
    rw [ih, detStep_snd]
    by_cases hd : dJ s > 0 <;> simp only [jumpCount, hd, if_true, if_false] <;> omega

/-- The loop logs one `Normal(0, sqrt xiV)` request per step with a
positive jump count, in step order. -/
theorem jdLoop_trace (f : ℕ → ℚ → ℚ) (xiV : ℚ) (dJ : ℕ → ℚ) :
    ∀ (k s : ℕ) (x : ℚ) (g : Rng),
      (jdLoop (detStep f xiV dJ) s k x g).2.trace =
        g.trace ++ List.replicate (jumpCount dJ s k) (Law.normalSqrt 0 xiV) := by
  intro k
  induction k with
  | zero => intro s x g; simp [jdLoop, jumpCount]
  | succ k ih =>
    intro s x g
    simp only [jdLoop]
    rw [ih, detStep_snd]
    by_cases hd : dJ s > 0 <;>
      simp [jumpCount, hd, Nat.one_add, List.replicate_succ, List.append_assoc]

/-- Value written at the `j`-th step of the loop: the deterministic part
applied to the previous value, plus, when the step's jump count is
positive, the count times the stream value at the position reached after
the jump draws of the earlier steps. -/
theorem jdLoop_getD (f : ℕ → ℚ → ℚ) (xiV : ℚ) (dJ : ℕ → ℚ) :
    ∀ (k s : ℕ) (x : ℚ) (g : Rng) (j : ℕ), j < k →
      (jdLoop (detStep f xiV dJ) s k x g).1.getD j 0 =
        f (s + j) (if j = 0 then x else (jdLoop (detStep f xiV dJ) s k x g).1.getD (j - 1) 0)
          + (if dJ (s + j) > 0
             then dJ (s + j) * g.stream (g.idx + jumpCount dJ s j)
             else 0) := by
  intro k
  induction k with
  | zero => intro s x g j hj; omega
  | succ k ih =>
    intro s x g j hj
    match j with
    | 0 =>
      simp only [jdLoop, List.getD_cons_zero]
      rw [detStep_fst]
      simp [jumpCount]
    | j' + 1 =>
      have hj' : j' < k := by omega
      have hs' : s + 1 + j' = s + (j' + 1) := by omega
      simp only [jdLoop, List.getD_cons_succ, Nat.add_sub_cancel]
      rw [ih (s + 1) (detStep f xiV dJ s x g).1 (detStep f xiV dJ s x g).2 j' hj', hs',
        detStep_snd]
      rcases j' with _ | j''
      · by_cases hd : dJ s > 0 <;>
          simp [hd, jumpCount, Nat.add_assoc]
      · by_cases hd : dJ s > 0 <;>
          simp [hd, jumpCount, Nat.add_assoc]

/-- Closed form of the routine body on the Euler branch: initial value,
noise block, jump block, then the Euler loop from the post-generation
state. -/
theorem jdMain_euler (time delta_t : ℚ) (a b xi lamb init : PyVal) (bp : PyVal) (g : Rng)
    (hinit : pyIsNone init = true ∨ isNumType init = true)
    (hlam : 0 ≤ lamb.toRat * delta_t)
    (hn : (pyInt (time / delta_t)).toNat ≠ 0) :
    jdMain time delta_t a b xi lamb init "Euler" bp g =
      ⟨.ok (eulerRun a.app b.app delta_t xi.toRat
              (dwListOf g init (pyInt (time / delta_t)).toNat)
              (dJListOf g init (pyInt (time / delta_t)).toNat)
              (jdX0 g init) (pyInt (time / delta_t)).toNat
              (postGen g init delta_t (lamb.toRat * delta_t) (pyInt (time / delta_t)).toNat)).1,
        (eulerRun a.app b.app delta_t xi.toRat
              (dwListOf g init (pyInt (time / delta_t)).toNat)
              (dJListOf g init (pyInt (time / delta_t)).toNat)
              (jdX0 g init) (pyInt (time / delta_t)).toNat
              (postGen g init delta_t (lamb.toRat * delta_t) (pyInt (time / delta_t)).toNat)).2,
        [.computedLength (pyInt (time / delta_t)), .allocatedPath (pyInt (time / delta_t)).toNat,
         .setInitial, .generatedNoise, .generatedJumps, .ranLoop]⟩ := by
  rcases hinit with h | h
  · have h0 : init = PyVal.none := by cases init <;> simp_all [pyIsNone]
    subst h0
    simp only [jdMain]
    rw [jdInit_none_pos _ _ _ hn]
    simp [Rng.drawBlock, not_lt.mpr hlam, dwListOf, dJListOf, wienerAt, jumpAt,
      initOffset, pyIsNone, jdX0, postGen, preTrace, Nat.add_assoc]
  · simp only [jdMain]
    rw [jdInit_num_pos _ _ _ _ h hn]
    simp [Rng.drawBlock, not_lt.mpr hlam, dwListOf, dJListOf, wienerAt, jumpAt,
      initOffset, isNumType_pyIsNone h, jdX0, postGen, preTrace, Nat.add_assoc]

/-- Closed form of the routine body when the solver string is neither
`Euler` nor `Milstein`: all pre-generation happens, no loop runs, and the
path is returned as initialised (`X[0]` followed by zeros). -/
theorem jdMain_other (time delta_t : ℚ) (a b xi lamb init : PyVal) (solver : String)
    (bp : PyVal) (g : Rng)
    (hinit : pyIsNone init = true ∨ isNumType init = true)
    (hlam : 0 ≤ lamb.toRat * delta_t)
    (hn : (pyInt (time / delta_t)).toNat ≠ 0)
    (hse : solver ≠ "Euler") (hsm : solver ≠ "Milstein") :
    jdMain time delta_t a b xi lamb init solver bp g =
      ⟨.ok (jdX0 g init :: List.replicate ((pyInt (time / delta_t)).toNat - 1) 0),
        postGen g init delta_t (lamb.toRat * delta_t) (pyInt (time / delta_t)).toNat,
        [.computedLength (pyInt (time / delta_t)),
         .allocatedPath (pyInt (time / delta_t)).toNat, .setInitial,
         .generatedNoise, .generatedJumps]⟩ := by
  rcases hinit with h | h
  · have h0 : init = PyVal.none := by cases init <;> simp_all [pyIsNone]
    subst h0
    simp only [jdMain]
    rw [jdInit_none_pos _ _ _ hn]
    simp [Rng.drawBlock, not_lt.mpr hlam, hse, hsm, initOffset, pyIsNone, jdX0,
      postGen, preTrace, Nat.add_assoc]
  · simp only [jdMain]
    rw [jdInit_num_pos _ _ _ _ h hn]
    simp [Rng.drawBlock, not_lt.mpr hlam, hse, hsm, initOffset, isNumType_pyIsNone h,
      jdX0, postGen, preTrace, Nat.add_assoc]

/-- Entry of a mapped range list below the length bound. -/
theorem getD_map_range (f : ℕ → ℚ) (n i : ℕ) (h : i < n) :
    ((List.range n).map f).getD i 0 = f i := by
  simp [List.getD_eq_getElem?_getD, List.getElem?_range h]

/-- Length of the Euler-branch path. -/
theorem eulerRun_length (a b : ℚ → ℚ) (dt xiV : ℚ) (dw dJ : List ℚ) (x0 : ℚ) (n : ℕ)
    (g : Rng) (hn : n ≠ 0) : (eulerRun a b dt xiV dw dJ x0 n g).1.length = n := by
  simp only [eulerRun, List.length_cons, jdLoop_length]
  omega

/-- First entry of the Euler-branch path. -/
theorem eulerRun_getD_zero (a b : ℚ → ℚ) (dt xiV : ℚ) (dw dJ : List ℚ) (x0 : ℚ) (n : ℕ)
    (g : Rng) : (eulerRun a b dt xiV dw dJ x0 n g).1.getD 0 0 = x0 := rfl

/-- One-step recurrence satisfied by the Euler-branch path. -/
theorem eulerRun_getD (a b : ℚ → ℚ) (dt xiV : ℚ) (dw dJ : List ℚ) (x0 : ℚ) (n : ℕ)
    (g : Rng) (i : ℕ) (h1 : 1 ≤ i) (hi : i < n) :
    (eulerRun a b dt xiV dw dJ x0 n g).1.getD i 0 =
      (eulerRun a b dt xiV dw dJ x0 n g).1.getD (i - 1) 0
        + a ((eulerRun a b dt xiV dw dJ x0 n g).1.getD (i - 1) 0) * dt
        + b ((eulerRun a b dt xiV dw dJ x0 n g).1.getD (i - 1) 0) * dw.getD i 0
        + (if dJ.getD i 0 > 0
           then dJ.getD i 0 * g.stream (g.idx + jumpCount (fun j => dJ.getD j 0) 1 (i - 1))
           else 0) := by
  obtain ⟨j, rfl⟩ : ∃ j, i = j + 1 := ⟨i - 1, by omega⟩
  simp only [eulerRun, List.getD_cons_succ, Nat.add_sub_cancel]
  rw [jdLoop_getD (eulerF a b dt dw) xiV (fun j => dJ.getD j 0) (n - 1) 1 x0 g j (by omega)]
  have h1j : 1 + j = j + 1 := by omega
  rw [h1j]
  rcases j with _ | j'
  · simp [eulerF]
  · simp [eulerF]

/-- Length of the Milstein-branch path. -/
theorem milsteinRun_length (a b bp : ℚ → ℚ) (dt xiV : ℚ) (dw dJ : List ℚ) (x0 : ℚ) (n : ℕ)
    (g : Rng) (hn : n ≠ 0) : (milsteinRun a b bp dt xiV dw dJ x0 n g).1.length = n := by
  simp only [milsteinRun, List.length_cons, jdLoop_length]
  omega

/-- One-step recurrence satisfied by the Milstein-branch path, with the
corrective term spelled out as `(dw[i]^2 - dt) / 2`. -/
theorem milsteinRun_getD (a b bp : ℚ → ℚ) (dt xiV : ℚ) (dw dJ : List ℚ) (x0 : ℚ) (n : ℕ)
    (g : Rng) (hlen : dw.length = n) (i : ℕ) (h1 : 1 ≤ i) (hi : i < n) :
    (milsteinRun a b bp dt xiV dw dJ x0 n g).1.getD i 0 =
      (milsteinRun a b bp dt xiV dw dJ x0 n g).1.getD (i - 1) 0
        + a ((milsteinRun a b bp dt xiV dw dJ x0 n g).1.getD (i - 1) 0) * dt
        + b ((milsteinRun a b bp dt xiV dw dJ x0 n g).1.getD (i - 1) 0) * dw.getD i 0
        + b ((milsteinRun a b bp dt xiV dw dJ x0 n g).1.getD (i - 1) 0)
            * bp ((milsteinRun a b bp dt xiV dw dJ x0 n g).1.getD (i - 1) 0)
            * ((dw.getD i 0 ^ 2 - dt) * (1 / 2))
        + (if dJ.getD i 0 > 0
           then dJ.getD i 0 * g.stream (g.idx + jumpCount (fun j => dJ.getD j 0) 1 (i - 1))
           else 0) := by
  have hcorr : (milsteinCorr dt dw).getD i 0 = (dw.getD i 0 ^ 2 - dt) * (1 / 2) := by
    have hi' : i < dw.length := by omega
    simp [milsteinCorr, List.getD_eq_getElem?_getD, List.getElem?_eq_getElem hi']
  obtain ⟨j, rfl⟩ : ∃ j, i = j + 1 := ⟨i - 1, by omega⟩
  simp only [milsteinRun, List.getD_cons_succ, Nat.add_sub_cancel]
  rw [jdLoop_getD (milsteinF a b bp dt dw (milsteinCorr dt dw)) xiV
    (fun j => dJ.getD j 0) (n - 1) 1 x0 g j (by omega)]
  have h1j : 1 + j = j + 1 := by omega
  rw [h1j]
  rcases j with _ | j'
  · simp [milsteinF]
    exact Or.inl (by simpa using hcorr)
  · simp [milsteinF]
    exact Or.inl (by simpa using hcorr)

/-- Fixed concrete generator state used by witnesses and counterexamples. -/
def rng0 : Rng := ⟨fun _ => 0, 0, []⟩

/-- A concrete identity callable used by witnesses and counterexamples. -/
def fId : PyVal := .func fun x => x

/-- Body of the routine when a provided `init` fails the exact type
check: the length has been computed and the array allocated, but no draw
is consumed. -/
theorem jdMain_initFail (time delta_t : ℚ) (a b xi lamb init : PyVal) (solver : String)
    (bp : PyVal) (g : Rng) (hin : pyIsNone init = false) (hit : isNumType init = false) :
    jdMain time delta_t a b xi lamb init solver bp g =
      ⟨.error (.assertionError "\x27init\x27 is not an int or float"), g,
       [.computedLength (pyInt (time / delta_t)),
        .allocatedPath (pyInt (time / delta_t)).toNat]⟩ := by
  simp [jdMain, jdInit, hin, hit]

/-- C1: with solver Milstein and a callable `b_prime` actually supplied,
the two precondition checks (`b_prime == None` and `callable(b_prime)`)
are mutually contradictory, so the call always fails with an assertion
failure: nothing is drawn, no event happens, and the Milstein integration
loop is never reached. -/
theorem c1_milstein_callable_bprime_always_fails
    (time delta_t : ℚ) (a b xi lamb init : PyVal) (b_prime : PyVal) (g : Rng)
    (hbp : callable b_prime = true) :
    ∃ m, jdprocess time delta_t a b xi lamb init "Milstein" b_prime g =
      ⟨.error (.assertionError m), g, []⟩ := by
  unfold jdprocess jdChecks
  by_cases h1 : time > 0
  · by_cases h2 : delta_t > 0
    · exact ⟨"Introduce b\x27(x) to use the Milstein solver",
        by simp [h1, h2, callable_pyEqNone hbp]⟩
    · exact ⟨"Time sampling must be positive", by simp [h1, h2]⟩
  · exact ⟨"Total integration time must be positive", by simp [h1]⟩

/-- C1 witness: the theorem applied at a fully concrete call. -/
theorem c1_witness :
    ∃ m, jdprocess 1 1 fId fId (PyVal.float 1) (PyVal.float 1) PyVal.none
        "Milstein" fId rng0 = ⟨.error (.assertionError m), rng0, []⟩ :=
  c1_milstein_callable_bprime_always_fails 1 1 fId fId (PyVal.float 1) (PyVal.float 1)
    PyVal.none fId rng0 rfl

/-- C4: precondition violations abort with an assertion failure before
any array is populated — `T = -1`, `Δt = 0`, non-callable `a` or `b`, and
Milstein with `b_prime = None` — each returning the generator untouched
and an empty event log: no partial result, no retry, no recovery. -/
theorem c4_precondition_failures :
    (∀ (delta_t : ℚ) (a b xi lamb init : PyVal) (solver : String) (bp : PyVal) (g : Rng),
      jdprocess (-1) delta_t a b xi lamb init solver bp g =
        ⟨.error (.assertionError "Total integration time must be positive"), g, []⟩) ∧
    (∀ (time : ℚ) (a b xi lamb init : PyVal) (solver : String) (bp : PyVal) (g : Rng),
      time > 0 →
      jdprocess time 0 a b xi lamb init solver bp g =
        ⟨.error (.assertionError "Time sampling must be positive"), g, []⟩) ∧
    (∀ (time delta_t : ℚ) (a b xi lamb init : PyVal) (solver : String) (bp : PyVal) (g : Rng),
      time > 0 → delta_t > 0 → solver ≠ "Milstein" → callable a = false →
      jdprocess time delta_t a b xi lamb init solver bp g =
        ⟨.error (.assertionError "drift a(x) must be a function"), g, []⟩) ∧
    (∀ (time delta_t : ℚ) (a b xi lamb init : PyVal) (solver : String) (bp : PyVal) (g : Rng),
      time > 0 → delta_t > 0 → solver ≠ "Milstein" → callable a = true → callable b = false →
      jdprocess time delta_t a b xi lamb init solver bp g =
        ⟨.error (.assertionError "diffusion b(x) must be a function"), g, []⟩) ∧
    (∀ (time delta_t : ℚ) (a b xi lamb init : PyVal) (g : Rng),
      time > 0 → delta_t > 0 →
      jdprocess time delta_t a b xi lamb init "Milstein" PyVal.none g =
        ⟨.error (.assertionError "b\x27(x) must be a function"), g, []⟩) := by
  refine ⟨?_, ?_, ?_, ?_, ?_⟩
  · intro delta_t a b xi lamb init solver bp g
    unfold jdprocess jdChecks
    rw [if_pos (by norm_num : ¬ ((-1 : ℚ) > 0))]
  · intro time a b xi lamb init solver bp g ht
    unfold jdprocess jdChecks
    simp [ht]
  · intro time delta_t a b xi lamb init solver bp g ht hdt hs ha
    unfold jdprocess jdChecks
    simp [ht, hdt, hs, ha]
  · intro time delta_t a b xi lamb init solver bp g ht hdt hs ha hb
    unfold jdprocess jdChecks
    simp [ht, hdt, hs, ha, hb]
  · intro time delta_t a b xi lamb init g ht hdt
    unfold jdprocess jdChecks
    simp [ht, hdt, pyEqNone, callable]

/-- C4 witness: the five scenarios at fully concrete calls. -/
theorem c4_witness :
    jdprocess (-1) 1 fId fId (PyVal.float 1) (PyVal.float 1) PyVal.none "Euler"
        PyVal.none rng0 =
      ⟨.error (.assertionError "Total integration time must be positive"), rng0, []⟩ ∧
    jdprocess 1 0 fId fId (PyVal.float 1) (PyVal.float 1) PyVal.none "Euler"
        PyVal.none rng0 =
      ⟨.error (.assertionError "Time sampling must be positive"), rng0, []⟩ ∧
    jdprocess 1 1 (PyVal.float 2) fId (PyVal.float 1) (PyVal.float 1) PyVal.none "Euler"
        PyVal.none rng0 =
      ⟨.error (.assertionError "drift a(x) must be a function"), rng0, []⟩ ∧
    jdprocess 1 1 fId (PyVal.float 2) (PyVal.float 1) (PyVal.float 1) PyVal.none "Euler"
        PyVal.none rng0 =
      ⟨.error (.assertionError "diffusion b(x) must be a function"), rng0, []⟩ ∧
    jdprocess 1 1 fId fId (PyVal.float 1) (PyVal.float 1) PyVal.none "Milstein"
        PyVal.none rng0 =
      ⟨.error (.assertionError "b\x27(x) must be a function"), rng0, []⟩ :=
  ⟨c4_precondition_failures.1 1 fId fId (PyVal.float 1) (PyVal.float 1) PyVal.none
      "Euler" PyVal.none rng0,
   c4_precondition_failures.2.1 1 fId fId (PyVal.float 1) (PyVal.float 1) PyVal.none
      "Euler" PyVal.none rng0 (by norm_num),
   c4_precondition_failures.2.2.1 1 1 (PyVal.float 2) fId (PyVal.float 1) (PyVal.float 1)
      PyVal.none "Euler" PyVal.none rng0 (by norm_num) (by norm_num) (by decide) rfl,
   c4_precondition_failures.2.2.2.1 1 1 fId (PyVal.float 2) (PyVal.float 1) (PyVal.float 1)
      PyVal.none "Euler" PyVal.none rng0 (by norm_num) (by norm_num) (by decide) rfl rfl,
   c4_precondition_failures.2.2.2.2 1 1 fId fId (PyVal.float 1) (PyVal.float 1)
      PyVal.none rng0 (by norm_num) (by norm_num)⟩

/-- C7 counterexample: with `init = True` (a bool, not an int or float)
and otherwise valid arguments, the assertion failure is raised only after
the length has been computed and the path array allocated, contradicting
a failure before any computation. -/
theorem c7_counterexample :
    (jdprocess 1 (1/2) fId fId (PyVal.float 1) (PyVal.float 1) (PyVal.bool true)
        "Euler" PyVal.none rng0).events =
      [Event.computedLength 2, Event.allocatedPath 2] ∧
    (jdprocess 1 (1/2) fId fId (PyVal.float 1) (PyVal.float 1) (PyVal.bool true)
        "Euler" PyVal.none rng0).out =
      .error (.assertionError "\x27init\x27 is not an int or float") := by
  rw [jdprocess_eq_main 1 (1/2) fId fId (PyVal.float 1) (PyVal.float 1) (PyVal.bool true)
      "Euler" PyVal.none rng0 (by norm_num) (by norm_num) (by decide) rfl rfl rfl rfl,
    jdMain_initFail 1 (1/2) fId fId (PyVal.float 1) (PyVal.float 1) (PyVal.bool true)
      "Euler" PyVal.none rng0 rfl rfl]
  norm_num [pyInt]
  decide

/-- C7 (amended): when `init` is provided and is not an int or float, the
call fails with the init assertion failure before any random draw is
consumed (the generator is returned untouched), but only after the length
has been computed and the path array allocated. -/
theorem c7_init_type_failure (time delta_t : ℚ) (a b xi lamb init : PyVal)
    (solver : String) (bp : PyVal) (g : Rng)
    (ht : time > 0) (hdt : delta_t > 0) (hs : solver ≠ "Milstein")
    (ha : callable a = true) (hb : callable b = true)
    (hlamb : isNumType lamb = true) (hxi : isNumType xi = true)
    (hin : pyIsNone init = false) (hit : isNumType init = false) :
    jdprocess time delta_t a b xi lamb init solver bp g =
      ⟨.error (.assertionError "\x27init\x27 is not an int or float"), g,
       [.computedLength (pyInt (time / delta_t)),
        .allocatedPath (pyInt (time / delta_t)).toNat]⟩ := by
  rw [jdprocess_eq_main time delta_t a b xi lamb init solver bp g ht hdt hs ha hb hlamb hxi]
  exact jdMain_initFail time delta_t a b xi lamb init solver bp g hin hit

/-- C7 witness: the amended theorem at a fully concrete call. -/
theorem c7_witness :
    jdprocess 2 1 fId fId (PyVal.float 1) (PyVal.float 1) (PyVal.str "x") "Euler"
        PyVal.none rng0 =
      ⟨.error (.assertionError "\x27init\x27 is not an int or float"), rng0,
       [.computedLength (pyInt (2 / 1)), .allocatedPath (pyInt (2 / 1)).toNat]⟩ :=
  c7_init_type_failure 2 1 fId fId (PyVal.float 1) (PyVal.float 1) (PyVal.str "x")
    "Euler" PyVal.none rng0 (by norm_num) (by norm_num) (by decide) rfl rfl rfl rfl rfl rfl

/-- C10: the checks on `lamb`, `xi` and a provided `init` accept only the
exact built-in types int and float: every other value — numpy floating
scalars, numpy integers, bools, and so on — is rejected with the
corresponding assertion failure, whatever the remaining arguments. -/
theorem c10_exact_type_checks (v : PyVal) (hv : isNumType v = false)
    (hvn : pyIsNone v = false) (time delta_t : ℚ) (a b xi lamb init : PyVal)
    (solver : String) (bp : PyVal) (g : Rng)
    (ht : time > 0) (hdt : delta_t > 0) (hs : solver ≠ "Milstein")
    (ha : callable a = true) (hb : callable b = true)
    (hlamb : isNumType lamb = true) (hxi : isNumType xi = true) :
    (jdprocess time delta_t a b xi v init solver bp g).out =
      .error (.assertionError "\x27lamb\x27 is not an int or float") ∧
    (jdprocess time delta_t a b v lamb init solver bp g).out =
      .error (.assertionError "\x27xi\x27 is not an int or float") ∧
    (jdprocess time delta_t a b xi lamb v solver bp g).out =
      .error (.assertionError "\x27init\x27 is not an int or float") := by
  refine ⟨?_, ?_, ?_⟩
  · unfold jdprocess jdChecks
    simp [ht, hdt, hs, ha, hb, hv]
  · unfold jdprocess jdChecks
    simp [ht, hdt, hs, ha, hb, hlamb, hv]
  · rw [jdprocess_eq_main time delta_t a b xi lamb v solver bp g ht hdt hs ha hb hlamb hxi,
      jdMain_initFail time delta_t a b xi lamb v solver bp g hvn hv]

/-- C10 witness: a numpy floating scalar in each of the three positions
of a fully concrete call. -/
theorem c10_witness :
    (jdprocess 1 1 fId fId (PyVal.float 1) (PyVal.npFloat (1/2)) PyVal.none "Euler"
        PyVal.none rng0).out =
      .error (.assertionError "\x27lamb\x27 is not an int or float") ∧
    (jdprocess 1 1 fId fId (PyVal.npFloat (1/2)) (PyVal.float 1) PyVal.none "Euler"
        PyVal.none rng0).out =
      .error (.assertionError "\x27xi\x27 is not an int or float") ∧
    (jdprocess 1 1 fId fId (PyVal.float 1) (PyVal.float 1) (PyVal.npFloat (1/2)) "Euler"
        PyVal.none rng0).out =
      .error (.assertionError "\x27init\x27 is not an int or float") :=
  c10_exact_type_checks (PyVal.npFloat (1/2)) rfl rfl 1 1 fId fId (PyVal.float 1)
    (PyVal.float 1) PyVal.none "Euler" PyVal.none rng0 (by norm_num) (by norm_num)
    (by decide) rfl rfl rfl rfl

/-- Body of the routine when `init` is absent and the computed length is
zero: the initial draw is consumed, then writing `X[0]` raises
`IndexError`. -/
theorem jdMain_zeroLen_noInit (time delta_t : ℚ) (a b xi lamb : PyVal) (solver : String)
    (bp : PyVal) (g : Rng) (hn : (pyInt (time / delta_t)).toNat = 0) :
    jdMain time delta_t a b xi lamb PyVal.none solver bp g =
      ⟨.error .indexError, ⟨g.stream, g.idx + 1, g.trace ++ [Law.normalSqrt 0 delta_t]⟩,
       [.computedLength (pyInt (time / delta_t)), .allocatedPath 0]⟩ := by
  simp [jdMain, jdInit, pyIsNone, hn, Rng.draw]

/-- C2 counterexample: T = 1, Δt = 2 passes every precondition
(both positive, callables, numeric parameters, solver Euler), yet the
routine raises IndexError writing `X[0]` into the length-0 array: no
sequence of length floor(T/Δt) = 0 is returned. -/
theorem c2_counterexample :
    (jdprocess 1 2 fId fId (PyVal.float 1) (PyVal.float 1) PyVal.none "Euler"
        PyVal.none rng0).out = .error .indexError := by
  rw [jdprocess_eq_main 1 2 fId fId (PyVal.float 1) (PyVal.float 1) PyVal.none "Euler"
      PyVal.none rng0 (by norm_num) (by norm_num) (by decide) rfl rfl rfl rfl,
    jdMain_zeroLen_noInit 1 2 fId fId (PyVal.float 1) (PyVal.float 1) "Euler" PyVal.none
      rng0 (by norm_num [pyInt])]

/-- C2 (amended): for valid arguments with λ ≥ 0, a solver other than
Milstein (whose checks never pass), and floor(T/Δt) ≥ 1, the returned
sequence has length exactly floor(T/Δt), independent of the other
parameters and of the drawn values. -/
theorem c2_output_length (time delta_t : ℚ) (a b xi lamb init : PyVal) (solver : String)
    (bp : PyVal) (g : Rng)
    (ht : time > 0) (hdt : delta_t > 0) (hs : solver ≠ "Milstein")
    (ha : callable a = true) (hb : callable b = true)
    (hlamb : isNumType lamb = true) (hxi : isNumType xi = true)
    (hinit : pyIsNone init = true ∨ isNumType init = true)
    (hlam : 0 ≤ lamb.toRat) (hn : 1 ≤ pyInt (time / delta_t)) :
    ∃ xs, (jdprocess time delta_t a b xi lamb init solver bp g).out = .ok xs ∧
      (xs.length : ℤ) = ⌊time / delta_t⌋ := by
  have hml : 0 ≤ lamb.toRat * delta_t := mul_nonneg hlam hdt.le
  have hnn : (pyInt (time / delta_t)).toNat ≠ 0 := by omega
  have hfl : pyInt (time / delta_t) = ⌊time / delta_t⌋ :=
    pyInt_nonneg _ (div_nonneg ht.le hdt.le)
  rw [jdprocess_eq_main time delta_t a b xi lamb init solver bp g ht hdt hs ha hb hlamb hxi]
  by_cases hsE : solver = "Euler"
  · subst hsE
    rw [jdMain_euler time delta_t a b xi lamb init bp g hinit hml hnn]
    refine ⟨_, rfl, ?_⟩
    rw [eulerRun_length _ _ _ _ _ _ _ _ _ hnn,
      Int.toNat_of_nonneg (by omega : (0 : ℤ) ≤ pyInt (time / delta_t)), hfl]
  · rw [jdMain_other time delta_t a b xi lamb init solver bp g hinit hml hnn hsE hs]
    refine ⟨_, rfl, ?_⟩
    simp only [List.length_cons, List.length_replicate]
    rw [← hfl]
    omega

/-- C2 witness: the amended theorem at a fully concrete call. -/
theorem c2_witness :
    ∃ xs, (jdprocess 1 (1/2) fId fId (PyVal.float 1) (PyVal.float 0) PyVal.none "Euler"
        PyVal.none rng0).out = .ok xs ∧ (xs.length : ℤ) = ⌊(1 : ℚ) / (1/2)⌋ :=
  c2_output_length 1 (1/2) fId fId (PyVal.float 1) (PyVal.float 0) PyVal.none "Euler"
    PyVal.none rng0 (by norm_num) (by norm_num) (by decide) rfl rfl rfl rfl
    (Or.inl rfl) (le_refl 0) (by norm_num [pyInt])

/-- C9 counterexample: an unrecognised solver string with otherwise valid
arguments can still fail — with T = 1, Δt = 2 the routine raises
IndexError, contradicting that no failure at all is raised. -/
theorem c9_counterexample :
    (jdprocess 1 2 fId fId (PyVal.float 1) (PyVal.float 1) PyVal.none "euler"
        PyVal.none rng0).out = .error .indexError := by
  rw [jdprocess_eq_main 1 2 fId fId (PyVal.float 1) (PyVal.float 1) PyVal.none "euler"
      PyVal.none rng0 (by norm_num) (by norm_num) (by decide) rfl rfl rfl rfl,
    jdMain_zeroLen_noInit 1 2 fId fId (PyVal.float 1) (PyVal.float 1) "euler" PyVal.none
      rng0 (by norm_num [pyInt])]

/-- C9 (amended): for every solver string other than Euler and Milstein,
with otherwise valid arguments, λ ≥ 0 and floor(T/Δt) ≥ 1, the call
raises no failure and silently returns the array as initialised: index 0
holds the initial condition and indices 1..N-1 are exactly 0 — neither
integration branch executes. -/
theorem c9_unknown_solver (time delta_t : ℚ) (a b xi lamb init : PyVal) (solver : String)
    (bp : PyVal) (g : Rng)
    (ht : time > 0) (hdt : delta_t > 0) (hse : solver ≠ "Euler") (hs : solver ≠ "Milstein")
    (ha : callable a = true) (hb : callable b = true)
    (hlamb : isNumType lamb = true) (hxi : isNumType xi = true)
    (hinit : pyIsNone init = true ∨ isNumType init = true)
    (hlam : 0 ≤ lamb.toRat) (hn : 1 ≤ pyInt (time / delta_t)) :
    (jdprocess time delta_t a b xi lamb init solver bp g).out =
      .ok (jdX0 g init :: List.replicate ((pyInt (time / delta_t)).toNat - 1) 0) := by
  have hml : 0 ≤ lamb.toRat * delta_t := mul_nonneg hlam hdt.le
  have hnn : (pyInt (time / delta_t)).toNat ≠ 0 := by omega
  rw [jdprocess_eq_main time delta_t a b xi lamb init solver bp g ht hdt hs ha hb hlamb hxi,
    jdMain_other time delta_t a b xi lamb init solver bp g hinit hml hnn hse hs]

/-- C9 witness: the amended theorem at a fully concrete call with solver
string "euler". -/
theorem c9_witness :
    (jdprocess 1 (1/2) fId fId (PyVal.float 1) (PyVal.float 0) (PyVal.float 5) "euler"
        PyVal.none rng0).out =
      .ok (jdX0 rng0 (PyVal.float 5) ::
        List.replicate ((pyInt ((1 : ℚ) / (1/2))).toNat - 1) 0) :=
  c9_unknown_solver 1 (1/2) fId fId (PyVal.float 1) (PyVal.float 0) (PyVal.float 5)
    "euler" PyVal.none rng0 (by norm_num) (by norm_num) (by decide) (by decide)
    rfl rfl rfl rfl (Or.inr rfl) (le_refl 0) (by norm_num [pyInt])

/-- C8: with T = Δt and valid arguments, the output has length 1 and
holds only the initial condition (the given init or the fresh initial
draw): the loop over indices 1..N-1 never executes. -/
theorem c8_single_entry (delta_t : ℚ) (a b xi lamb init : PyVal) (solver : String)
    (bp : PyVal) (g : Rng)
    (hdt : delta_t > 0) (hs : solver ≠ "Milstein")
    (ha : callable a = true) (hb : callable b = true)
    (hlamb : isNumType lamb = true) (hxi : isNumType xi = true)
    (hinit : pyIsNone init = true ∨ isNumType init = true)
    (hlam : 0 ≤ lamb.toRat) :
    (jdprocess delta_t delta_t a b xi lamb init solver bp g).out = .ok [jdX0 g init] := by
  have hq : delta_t / delta_t = 1 := div_self (ne_of_gt hdt)
  have hp1 : pyInt (delta_t / delta_t) = 1 := by rw [hq]; norm_num [pyInt]
  have hml : 0 ≤ lamb.toRat * delta_t := mul_nonneg hlam hdt.le
  have hnn : (pyInt (delta_t / delta_t)).toNat ≠ 0 := by rw [hp1]; decide
  rw [jdprocess_eq_main delta_t delta_t a b xi lamb init solver bp g hdt hdt hs ha hb
    hlamb hxi]
  by_cases hsE : solver = "Euler"
  · subst hsE
    rw [jdMain_euler delta_t delta_t a b xi lamb init bp g hinit hml hnn]
    simp [eulerRun, hp1, jdLoop]
  · rw [jdMain_other delta_t delta_t a b xi lamb init solver bp g hinit hml hnn hsE hs]
    simp [hp1]

/-- C8 witness: the theorem at a fully concrete call with T = Δt = 1. -/
theorem c8_witness :
    (jdprocess 1 1 fId fId (PyVal.float 1) (PyVal.float 0) PyVal.none "Euler"
        PyVal.none rng0).out = .ok [jdX0 rng0 PyVal.none] :=
  c8_single_entry 1 fId fId (PyVal.float 1) (PyVal.float 0) PyVal.none "Euler"
    PyVal.none rng0 (by norm_num) (by decide) rfl rfl rfl rfl (Or.inl rfl) (le_refl 0)

/-- C3: on the Euler branch with valid arguments, every entry of the
returned path satisfies
`path[i] = path[i-1] + a(path[i-1])·Δt + b(path[i-1])·W[i]` with `W[i]`
the i-th pre-generated Wiener increment, plus — exactly when the i-th
pre-generated jump count is positive — that count times one fresh
`Normal(0, sqrt ξ)` draw taken at the stream position reached after the
jump draws of the earlier steps (so no jump-size draw happens at steps
without a jump). -/
theorem c3_euler_recurrence (time delta_t : ℚ) (a b xi lamb init : PyVal) (bp : PyVal)
    (g : Rng)
    (ht : time > 0) (hdt : delta_t > 0)
    (ha : callable a = true) (hb : callable b = true)
    (hlamb : isNumType lamb = true) (hxi : isNumType xi = true)
    (hinit : pyIsNone init = true ∨ isNumType init = true)
    (hlam : 0 ≤ lamb.toRat) (hn : 1 ≤ pyInt (time / delta_t)) :
    ∃ xs, (jdprocess time delta_t a b xi lamb init "Euler" bp g).out = Except.ok xs ∧
      xs.length = (pyInt (time / delta_t)).toNat ∧
      ∀ i, 1 ≤ i → i < xs.length →
        xs.getD i 0 =
          xs.getD (i - 1) 0 + a.app (xs.getD (i - 1) 0) * delta_t
            + b.app (xs.getD (i - 1) 0) * wienerAt g init i
            + (if jumpAt g init ((pyInt (time / delta_t)).toNat) i > 0
               then jumpAt g init ((pyInt (time / delta_t)).toNat) i
                 * jumpDrawAt g init ((pyInt (time / delta_t)).toNat)
                     (loopJumps g init ((pyInt (time / delta_t)).toNat) i)
               else 0) := by
  have hml : 0 ≤ lamb.toRat * delta_t := mul_nonneg hlam hdt.le
  have hnn : (pyInt (time / delta_t)).toNat ≠ 0 := by omega
  rw [jdprocess_eq_main time delta_t a b xi lamb init "Euler" bp g ht hdt (by decide)
      ha hb hlamb hxi,
    jdMain_euler time delta_t a b xi lamb init bp g hinit hml hnn]
  refine ⟨_, rfl, eulerRun_length _ _ _ _ _ _ _ _ _ hnn, ?_⟩
  intro i h1 hi
  rw [eulerRun_length _ _ _ _ _ _ _ _ _ hnn] at hi
  rw [eulerRun_getD _ _ _ _ _ _ _ _ _ i h1 hi]
  have hw : (dwListOf g init ((pyInt (time / delta_t)).toNat)).getD i 0
      = wienerAt g init i := by
    simpa [dwListOf] using getD_map_range (fun j => wienerAt g init j) _ i hi
  have hj : (dJListOf g init ((pyInt (time / delta_t)).toNat)).getD i 0
      = jumpAt g init ((pyInt (time / delta_t)).toNat) i := by
    simpa [dJListOf] using
      getD_map_range (fun j => jumpAt g init ((pyInt (time / delta_t)).toNat) j) _ i hi
  rw [hw, hj]
  simp [postGen, jumpDrawAt, loopJumps]

/-- C3 witness: the theorem at a fully concrete call. -/
theorem c3_witness :
    ∃ xs, (jdprocess 1 (1/2) fId fId (PyVal.float 1) (PyVal.float 0) PyVal.none "Euler"
        PyVal.none rng0).out = Except.ok xs ∧
      xs.length = (pyInt ((1 : ℚ) / (1/2))).toNat ∧
      ∀ i, 1 ≤ i → i < xs.length →
        xs.getD i 0 =
          xs.getD (i - 1) 0 + PyVal.app fId (xs.getD (i - 1) 0) * (1/2)
            + PyVal.app fId (xs.getD (i - 1) 0) * wienerAt rng0 PyVal.none i
            + (if jumpAt rng0 PyVal.none ((pyInt ((1 : ℚ) / (1/2))).toNat) i > 0
               then jumpAt rng0 PyVal.none ((pyInt ((1 : ℚ) / (1/2))).toNat) i
                 * jumpDrawAt rng0 PyVal.none ((pyInt ((1 : ℚ) / (1/2))).toNat)
                     (loopJumps rng0 PyVal.none ((pyInt ((1 : ℚ) / (1/2))).toNat) i)
               else 0) :=
  c3_euler_recurrence 1 (1/2) fId fId (PyVal.float 1) (PyVal.float 0) PyVal.none
    PyVal.none rng0 (by norm_num) (by norm_num) rfl rfl rfl rfl (Or.inl rfl)
    (le_refl 0) (by norm_num [pyInt])

/-- C5: the Milstein loop as written computes its corrective terms
`C[i] = (W[i]^2 - Δt)/2` from the noise block before the loop, and every
produced entry satisfies
`path[i] = path[i-1] + a(path[i-1])·Δt + b(path[i-1])·W[i]
 + b(path[i-1])·b_prime(path[i-1])·C[i]`, plus the jump term
`J[i] · fresh Normal(0, sqrt ξ) draw` exactly when `J[i] > 0`. -/
theorem c5_milstein_recurrence (a b bp : ℚ → ℚ) (dt xiV : ℚ) (dw dJ : List ℚ)
    (x0 : ℚ) (n : ℕ) (g : Rng) (hlen : dw.length = n) (hn : n ≠ 0) :
    (milsteinRun a b bp dt xiV dw dJ x0 n g).1.length = n ∧
    ∀ i, 1 ≤ i → i < n →
      (milsteinRun a b bp dt xiV dw dJ x0 n g).1.getD i 0 =
        (milsteinRun a b bp dt xiV dw dJ x0 n g).1.getD (i - 1) 0
          + a ((milsteinRun a b bp dt xiV dw dJ x0 n g).1.getD (i - 1) 0) * dt
          + b ((milsteinRun a b bp dt xiV dw dJ x0 n g).1.getD (i - 1) 0) * dw.getD i 0
          + b ((milsteinRun a b bp dt xiV dw dJ x0 n g).1.getD (i - 1) 0)
              * bp ((milsteinRun a b bp dt xiV dw dJ x0 n g).1.getD (i - 1) 0)
              * ((dw.getD i 0 ^ 2 - dt) * (1 / 2))
          + (if dJ.getD i 0 > 0
             then dJ.getD i 0 * g.stream (g.idx + jumpCount (fun j => dJ.getD j 0) 1 (i - 1))
             else 0) :=
  ⟨milsteinRun_length a b bp dt xiV dw dJ x0 n g hn,
   fun i h1 hi => milsteinRun_getD a b bp dt xiV dw dJ x0 n g hlen i h1 hi⟩

/-- C5 witness: the theorem at a concrete loop run. -/
theorem c5_witness :
    (milsteinRun (fun x => x) (fun x => x) (fun _ => 1) (1/2) 1 [0, 1] [0, 2] 3 2
        rng0).1.length = 2 ∧
    ∀ i, 1 ≤ i → i < 2 →
      (milsteinRun (fun x => x) (fun x => x) (fun _ => 1) (1/2) 1 [0, 1] [0, 2] 3 2
          rng0).1.getD i 0 =
        (milsteinRun (fun x => x) (fun x => x) (fun _ => 1) (1/2) 1 [0, 1] [0, 2] 3 2
            rng0).1.getD (i - 1) 0
          + (milsteinRun (fun x => x) (fun x => x) (fun _ => 1) (1/2) 1 [0, 1] [0, 2] 3 2
              rng0).1.getD (i - 1) 0 * (1/2)
          + (milsteinRun (fun x => x) (fun x => x) (fun _ => 1) (1/2) 1 [0, 1] [0, 2] 3 2
              rng0).1.getD (i - 1) 0 * List.getD ([0, 1] : List ℚ) i 0
          + (milsteinRun (fun x => x) (fun x => x) (fun _ => 1) (1/2) 1 [0, 1] [0, 2] 3 2
              rng0).1.getD (i - 1) 0 * 1
              * ((List.getD ([0, 1] : List ℚ) i 0 ^ 2 - 1/2) * (1 / 2))
          + (if List.getD ([0, 2] : List ℚ) i 0 > 0
             then List.getD ([0, 2] : List ℚ) i 0 *
               rng0.stream (rng0.idx +
                 jumpCount (fun j => List.getD ([0, 2] : List ℚ) j 0) 1 (i - 1))
             else 0) :=
  c5_milstein_recurrence (fun x => x) (fun x => x) (fun _ => 1) (1/2) 1 [0, 1] [0, 2] 3 2
    rng0 rfl (by decide)

/-- C6: the random stream is consumed in a fixed order — one initial
`Normal(0, sqrt Δt)` draw only when `init` is absent, then the full block
of N `Normal(0, sqrt Δt)` Wiener increments, then the full block of N
`Poisson(λΔt)` jump counts, both complete before the loop, and finally
(on the Euler branch, the only loop that can run) one `Normal(0, sqrt ξ)`
draw per loop step whose jump count is positive, in increasing step
order. -/
theorem c6_draw_order (time delta_t : ℚ) (a b xi lamb init : PyVal) (solver : String)
    (bp : PyVal) (g : Rng)
    (ht : time > 0) (hdt : delta_t > 0) (hs : solver ≠ "Milstein")
    (ha : callable a = true) (hb : callable b = true)
    (hlamb : isNumType lamb = true) (hxi : isNumType xi = true)
    (hinit : pyIsNone init = true ∨ isNumType init = true)
    (hlam : 0 ≤ lamb.toRat) (hn : 1 ≤ pyInt (time / delta_t)) :
    (jdprocess time delta_t a b xi lamb init solver bp g).rng.trace =
      g.trace ++ (if pyIsNone init then [Law.normalSqrt 0 delta_t] else [])
        ++ List.replicate ((pyInt (time / delta_t)).toNat) (Law.normalSqrt 0 delta_t)
        ++ List.replicate ((pyInt (time / delta_t)).toNat)
             (Law.poisson (lamb.toRat * delta_t))
        ++ (if solver = "Euler"
            then List.replicate
              (loopJumps g init ((pyInt (time / delta_t)).toNat)
                ((pyInt (time / delta_t)).toNat))
              (Law.normalSqrt 0 xi.toRat)
            else []) := by
  have hml : 0 ≤ lamb.toRat * delta_t := mul_nonneg hlam hdt.le
  have hnn : (pyInt (time / delta_t)).toNat ≠ 0 := by omega
  rw [jdprocess_eq_main time delta_t a b xi lamb init solver bp g ht hdt hs ha hb hlamb hxi]
  by_cases hsE : solver = "Euler"
  · subst hsE
    rw [jdMain_euler time delta_t a b xi lamb init bp g hinit hml hnn]
    show (eulerRun _ _ _ _ _ _ _ _ _).2.trace = _
    simp only [eulerRun]
    rw [jdLoop_trace]
    simp [postGen, preTrace, loopJumps, List.append_assoc]
  · rw [jdMain_other time delta_t a b xi lamb init solver bp g hinit hml hnn hsE hs]
    simp [postGen, preTrace, hsE, List.append_assoc]

/-- C6 witness: the theorem at a fully concrete call. -/
theorem c6_witness :
    (jdprocess 1 (1/2) fId fId (PyVal.float 1) (PyVal.float 0) PyVal.none "Euler"
        PyVal.none rng0).rng.trace =
      rng0.trace ++ (if pyIsNone PyVal.none then [Law.normalSqrt 0 (1/2)] else [])
        ++ List.replicate ((pyInt ((1 : ℚ) / (1/2))).toNat) (Law.normalSqrt 0 (1/2))
        ++ List.replicate ((pyInt ((1 : ℚ) / (1/2))).toNat)
             (Law.poisson ((PyVal.float 0).toRat * (1/2)))
        ++ (if "Euler" = "Euler"
            then List.replicate
              (loopJumps rng0 PyVal.none ((pyInt ((1 : ℚ) / (1/2))).toNat)
                ((pyInt ((1 : ℚ) / (1/2))).toNat))
              (Law.normalSqrt 0 (PyVal.float 1).toRat)
            else []) :=
  c6_draw_order 1 (1/2) fId fId (PyVal.float 1) (PyVal.float 0) PyVal.none "Euler"
    PyVal.none rng0 (by norm_num) (by norm_num) (by decide) rfl rfl rfl rfl
    (Or.inl rfl) (le_refl 0) (by norm_num [pyInt])

end JumpDiff
